import Mathlib

/-!
Shallow embedding of `cal_1582.py`, a proleptic Julian/Gregorian hybrid
calendar program that renders one month as a fixed 6×7 grid and models the
October 1582 Gregorian reformation gap.  Python integers are embedded as
`Int` (with `Int.fdiv`/`Int.emod` for Python's floor division and modulo)
or as `Nat` where the source value is provably non-negative; Python lists
become Lean `List`s; the CPython `calendar` module functions used by the
source (`calendar.leapdays`, `calendar.isleap`) are embedded from their
stdlib definitions.
-/

namespace Cal1582

/-! ### Global data (source lines 52-75) -/

def gregorian_reformation_year : Nat := 1582

def gregorian_reformation_month : Nat := 10

def gregorian_reformation_step : Nat := 10

def gregorian_reformation_month_calendar : List (List Nat) :=
  [[ 1,  2,  3,  4, 15, 16, 17],
   [18, 19, 20, 21, 22, 23, 24],
   [25, 26, 27, 28, 29, 30, 31],
   [ 0,  0,  0,  0,  0,  0,  0],
   [ 0,  0,  0,  0,  0,  0,  0],
   [ 0,  0,  0,  0,  0,  0,  0]]

def ancient_leapyear_period : Nat := 4

def leapdays_function_error : Nat := 12

def month_days : List Nat := [0, 31, 28, 31, 30, 31, 30, 31, 31, 30, 31, 30, 31]

def week_days : List String :=
  ["Monday", "Tuesday", "Wednesday", "Thursday", "Friday", "Saturday", "Sunday"]

def month_names : List String :=
  ["?", "January", "February", "March", "April", "May", "June",
   "July", "August", "September", "October", "November", "December"]

/-! ### CPython `calendar` module functions used by the source -/

/-- CPython `calendar.isleap(year)`:
`year % 4 == 0 and (year % 100 != 0 or year % 400 == 0)`. -/
def calendar_isleap (year : Nat) : Bool :=
  year % 4 == 0 && (year % 100 != 0 || year % 400 == 0)

/-- CPython `calendar.leapdays(y1, y2)`: number of leap days between years
`y1` and `y2` under the (retroactively applied) Gregorian rule, computed as
`y1 -= 1; y2 -= 1; (y2//4 - y1//4) - (y2//100 - y1//100) + (y2//400 - y1//400)`. -/
def calendar_leapdays (y1 y2 : Int) : Int :=
  ((y2 - 1).fdiv 4 - (y1 - 1).fdiv 4) - ((y2 - 1).fdiv 100 - (y1 - 1).fdiv 100)
    + ((y2 - 1).fdiv 400 - (y1 - 1).fdiv 400)

/-! ### Engine functions (source lines 83-184) -/

/-- `previous_leap_days(year)` (source lines 83-90): number of leap years in
`[1, year)`; Julian count below the reformation, `calendar.leapdays` plus the
fixed correction constant above it. -/
def previous_leap_days (year : Nat) : Int :=
  if year ≤ gregorian_reformation_year then
    ((year : Int) - 1).fdiv ancient_leapyear_period
  else
    calendar_leapdays 1 year + leapdays_function_error

/-- `is_leap_year(year)` (source lines 93-98): Julian rule up to the
reformation year, `calendar.isleap` afterwards. -/
def is_leap_year (year : Nat) : Bool :=
  if year ≤ gregorian_reformation_year then
    year % ancient_leapyear_period == 0
  else
    calendar_isleap year

/-- `days_on_month(month, year)` (source lines 101-117): days in the month,
with the reformation month counted from the nonzero cells of its literal grid
and February lengthened by `is_leap_year`. -/
def days_on_month (month year : Nat) : Nat :=
  if month = gregorian_reformation_month ∧ year = gregorian_reformation_year then
    (gregorian_reformation_month_calendar.map
      (fun line => (line.map (fun x => if x ≠ 0 then 1 else 0)).sum)).sum
  else if is_leap_year year ∧ month_names.getD month "?" = "February" then
    month_days.getD month 0 + 1
  else
    month_days.getD month 0

/-- `days_up_to(month, year)` (source lines 120-146): days in the range
`[1-1-1, year-month-1)`. -/
def days_up_to (month year : Nat) : Int :=
  let n0 : Int := 0
  let n1 : Int := n0 + ((year : Int) - 1) * ((month_days.drop 1).sum : Int)
  let n2 : Int := n1 + previous_leap_days year
  let n3 : Int := n2 + ((month_days.take month).sum : Int)
  let n4 : Int :=
    if calendar_isleap year ∧ month > month_names.indexOf "February" then n3 + 1 else n3
  let n5 : Int :=
    if year > gregorian_reformation_year ∨
       (year = gregorian_reformation_year ∧ month > gregorian_reformation_month) then
      n4 - gregorian_reformation_step
    else n4
  n5

/-- The local `week_day_number` of `month_calendar` (source lines 164-169):
weekday (0-6) of day 1 of the month, anchored on January 1st, year 1 being a
Saturday. -/
def week_day_number (month year : Nat) : Nat :=
  ((days_up_to month year + (week_days.indexOf "Saturday" : Int)) %
    (week_days.length : Int)).toNat

/-- The all-zero 6×7 matrix the grid loop starts from (source lines 171-176). -/
def empty_month_calendar : List (List Nat) :=
  [[0, 0, 0, 0, 0, 0, 0],
   [0, 0, 0, 0, 0, 0, 0],
   [0, 0, 0, 0, 0, 0, 0],
   [0, 0, 0, 0, 0, 0, 0],
   [0, 0, 0, 0, 0, 0, 0],
   [0, 0, 0, 0, 0, 0, 0]]

/-- `month_calendar[row][column] = mthday` of the grid loop: functional update
of one cell of a list-of-lists matrix. -/
def setCell (g : List (List Nat)) (row column v : Nat) : List (List Nat) :=
  g.set row ((g.getD row []).set column v)

/-- The `for mthday in range(1, days_on_month(month, year) + 1)` loop of
`month_calendar` (source lines 177-183), with the day numbers still to place
passed as a list. -/
def place_days (g : List (List Nat)) (row column : Nat) : List Nat → List (List Nat)
  | [] => g
  | d :: ds =>
      place_days (setCell g row column d)
        (if column = week_days.length - 1 then row + 1 else row)
        ((column + 1) % week_days.length) ds

/-- `month_calendar(month, year)` (source lines 149-184): the 6×7 day grid,
hard-coded for the reformation month, otherwise filled from
`week_day_number`. -/
def month_calendar (month year : Nat) : List (List Nat) :=
  if month = gregorian_reformation_month ∧ year = gregorian_reformation_year then
    gregorian_reformation_month_calendar
  else
    place_days empty_month_calendar 0 (week_day_number month year)
      (List.range' 1 (days_on_month month year))

/-- Reading a cell of a grid, 0 outside the matrix. -/
def cell (g : List (List Nat)) (row column : Nat) : Nat :=
  (g.getD row []).getD column 0

/-- One start-column/month-length instance of the grid-layout property,
as an executable check: the filled grid is 6×7 and cell (r, c) holds
`7*r + c + 1 - s` exactly when position `7*r + c` lies in the run of `n`
placed days starting at `s`, and 0 otherwise. -/
def grid_ok (s n : Nat) : Bool :=
  ((place_days empty_month_calendar 0 s (List.range' 1 n)).length == 6) &&
  ((place_days empty_month_calendar 0 s (List.range' 1 n)).all fun row => row.length == 7) &&
  ((List.range 6).all fun r =>
    (List.range 7).all fun c =>
      cell (place_days empty_month_calendar 0 s (List.range' 1 n)) r c ==
        if s ≤ 7 * r + c ∧ 7 * r + c < s + n then 7 * r + c + 1 - s else 0)

/-! ### Spec-side definitions (written from the spec's words, for the
refinement claims) -/

/-- Modelled from the spec: the standard (non-piecewise) Gregorian leap rule,
`year mod 4 == 0 and (year mod 100 != 0 or year mod 400 == 0)`. -/
def std_gregorian_leap (year : Nat) : Bool :=
  year % 4 == 0 && (year % 100 != 0 || year % 400 == 0)

/-- Modelled from the spec: the month-length table
(31,28,31,30,31,30,31,31,30,31,30,31), month `m` at index `m - 1`. -/
def spec_month_lengths : List Nat := [31, 28, 31, 30, 31, 30, 31, 31, 30, 31, 30, 31]

/-- Modelled from the spec (§4.4): `(year−1)×365 + priorLeapDays(year) +
sum(monthLengths[1..month−1]) + (1 if standard-Gregorian-leap(year) and
month > February else 0) − (10 if strictly after the reformation cutover)`. -/
def days_up_to_spec (month year : Nat) : Int :=
  ((year : Int) - 1) * 365 + previous_leap_days year
    + ((spec_month_lengths.take (month - 1)).sum : Int)
    + (if std_gregorian_leap year = true ∧ month > 2 then 1 else 0)
    - (if year > 1582 ∨ (year = 1582 ∧ month > 10) then 10 else 0)

/-- Modelled from the spec: the number of standard-Gregorian leap years in
`[1, year)`. -/
def gregorian_leap_count (year : Nat) : Nat :=
  ((Finset.Ico 1 year).filter fun y => std_gregorian_leap y = true).card

/-- Outcome of one program invocation: either `sys.exit` with a usage message
(printed to standard error, exit status 1, no calendar output) or a printed
calendar (no usage message). -/
inductive MainOutcome where
  | usage_exit (msg : String)
  | calendar_output (grid : List (List Nat))
deriving DecidableEq

/-- The `__main__` block (source lines 219-228).  The two `int(sys.argv[i])`
parses are passed in as `Option Int`: `none` represents a missing argument
(`IndexError`) or a non-integer argument (`ValueError`), both caught by the
same handler.  `sys.exit(msg)` — print `msg` to standard error and exit with
status 1 — is `MainOutcome.usage_exit msg`; a completed `print_month` run is
`MainOutcome.calendar_output` carrying the grid it renders. -/
def main_program (progname : String) (arg1 arg2 : Option Int) : MainOutcome :=
  match arg1, arg2 with
  | some month, some year =>
      if month < 1 ∨ month > 12 ∨ year < 1 then
        .usage_exit ("Usage: " ++ progname ++ " month year")
      else
        .calendar_output (month_calendar month.toNat year.toNat)
  | _, _ => .usage_exit ("Usage: " ++ progname ++ " month year")

/-! ### Basic evaluation lemmas -/

theorem fdiv_coe_coe (m n : Nat) : Int.fdiv (m : Int) (n : Int) = ((m / n : Nat) : Int) := by
  cases m with
  | zero => rw [Nat.zero_div]; rfl
  | succ k => rfl

theorem week_days_length_eq : week_days.length = 7 := rfl

theorem saturday_index : week_days.indexOf "Saturday" = 5 := rfl

theorem february_index : month_names.indexOf "February" = 2 := rfl

theorem month_days_tail_sum : (month_days.drop 1).sum = 365 := rfl

theorem week_day_number_eq (month year : Nat) :
    week_day_number month year = ((days_up_to month year + 5) % 7).toNat := rfl

theorem week_day_number_lt (month year : Nat) : week_day_number month year < 7 := by
  rw [week_day_number_eq]
  omega

theorem month_days_bounds (month : Nat) (h1 : 1 ≤ month) (h2 : month ≤ 12) :
    28 ≤ month_days.getD month 0 ∧ month_days.getD month 0 ≤ 31 := by
  interval_cases month <;> decide

theorem month_names_feb (month : Nat) (h1 : 1 ≤ month) (h2 : month ≤ 12) :
    month_names.getD month "?" = "February" ↔ month = 2 := by
  interval_cases month <;> decide

theorem days_on_month_pos_le (month year : Nat) (h1 : 1 ≤ month) (h2 : month ≤ 12)
    (hnr : ¬(month = gregorian_reformation_month ∧ year = gregorian_reformation_year)) :
    1 ≤ days_on_month month year ∧ days_on_month month year ≤ 31 := by
  unfold days_on_month
  rw [if_neg hnr]
  split
  case isTrue h =>
    have hm : month = 2 := (month_names_feb month h1 h2).mp h.2
    subst hm
    decide
  case isFalse h =>
    have := month_days_bounds month h1 h2
    omega

theorem grid_ok_all :
    ((List.range 7).all fun s => (List.range' 1 31).all fun n => grid_ok s n) = true := by
  decide

theorem place_days_spec (s n : Nat) (hs : s < 7) (hn1 : 1 ≤ n) (hn2 : n ≤ 31) :
    (place_days empty_month_calendar 0 s (List.range' 1 n)).length = 6 ∧
    ((place_days empty_month_calendar 0 s (List.range' 1 n)).all
      fun row => row.length == 7) = true ∧
    ∀ r, r < 6 → ∀ c, c < 7 →
      cell (place_days empty_month_calendar 0 s (List.range' 1 n)) r c =
        if s ≤ 7 * r + c ∧ 7 * r + c < s + n then 7 * r + c + 1 - s else 0 := by
  have h := grid_ok_all
  simp only [List.all_eq_true, List.mem_range, List.mem_range'_1] at h
  have h' := h s hs n ⟨hn1, by omega⟩
  unfold grid_ok at h'
  simp only [Bool.and_eq_true] at h'
  refine ⟨by simpa using h'.1.1, h'.1.2, fun r hr c hc => ?_⟩
  have h3 := h'.2
  simp only [List.all_eq_true, List.mem_range, beq_iff_eq] at h3
  exact h3 r hr c hc

/-! ### Claims -/

/-- C1: for every month in [1,12] and year ≥ 1 with (month, year) ≠ (10, 1582),
`month_calendar` is a 6×7 grid whose nonzero cells are exactly
1..`days_on_month month year`, each exactly once, in consecutive row-major
positions starting at the start-weekday column of row 0, never overflowing
the fixed 6 rows: cell (r, c) holds day `7*r + c + 1 - start` exactly when
position `7*r + c` lies in the placed run, and 0 otherwise. -/
theorem C1_month_grid_layout (month year r c : Nat) (hm1 : 1 ≤ month) (hm2 : month ≤ 12)
    (hy : 1 ≤ year) (hnr : ¬(month = 10 ∧ year = 1582)) (hr : r < 6) (hc : c < 7) :
    (month_calendar month year).length = 6 ∧
    ((month_calendar month year).all fun row => row.length == 7) = true ∧
    cell (month_calendar month year) r c =
      (if week_day_number month year ≤ 7 * r + c ∧
          7 * r + c < week_day_number month year + days_on_month month year then
        7 * r + c + 1 - week_day_number month year
      else 0) := by
  have hnr' : ¬(month = gregorian_reformation_month ∧ year = gregorian_reformation_year) := hnr
  have hb := days_on_month_pos_le month year hm1 hm2 hnr'
  have hspec := place_days_spec (week_day_number month year) (days_on_month month year)
      (week_day_number_lt month year) hb.1 hb.2
  unfold month_calendar
  rw [if_neg hnr']
  exact ⟨hspec.1, hspec.2.1, hspec.2.2 r hr c hc⟩

theorem C1_month_grid_layout_witness :
    (month_calendar 3 2024).length = 6 ∧
    ((month_calendar 3 2024).all fun row => row.length == 7) = true ∧
    cell (month_calendar 3 2024) 0 5 =
      (if week_day_number 3 2024 ≤ 7 * 0 + 5 ∧
          7 * 0 + 5 < week_day_number 3 2024 + days_on_month 3 2024 then
        7 * 0 + 5 + 1 - week_day_number 3 2024
      else 0) :=
  C1_month_grid_layout 3 2024 0 5 (by decide) (by decide) (by decide) (by decide)
    (by decide) (by decide)

/-- C2 counterexample: the claim places day 1 at column
`(days_up_to month year + 6) % 7` of row 0; at month 1, year 1 that column is
6, but the cell of `month_calendar 1 1` there holds 2, not 1 (the code adds
`week_days.index("Saturday") = 5`, not 6). -/
theorem C2_cex_day_one_not_at_plus_six :
    ¬ cell (month_calendar 1 1) 0 (((days_up_to 1 1 + 6) % 7).toNat) = 1 := by
  decide

/-- C2 amended: the grid builder places day 1 of the month at column
`(days_up_to month year + 5) % 7` of row 0; the anchor offset added before
reduction modulo 7 equals 5, Saturday's index in the Monday→0 … Sunday→6
weekday scheme (`week_days.indexOf "Saturday" = 5`), encoding that year 1,
month 1, day 1 falls on Saturday. -/
theorem C2_day_one_column (month year : Nat) (hm1 : 1 ≤ month) (hm2 : month ≤ 12)
    (hy : 1 ≤ year) (hnr : ¬(month = 10 ∧ year = 1582)) :
    cell (month_calendar month year) 0 (((days_up_to month year + 5) % 7).toNat) = 1 ∧
    week_days.indexOf "Saturday" = 5 := by
  refine ⟨?_, saturday_index⟩
  have hw : ((days_up_to month year + 5) % 7).toNat = week_day_number month year :=
    (week_day_number_eq month year).symm
  rw [hw]
  have hnr' : ¬(month = gregorian_reformation_month ∧ year = gregorian_reformation_year) := hnr
  have hb := days_on_month_pos_le month year hm1 hm2 hnr'
  have hspec := place_days_spec (week_day_number month year) (days_on_month month year)
      (week_day_number_lt month year) hb.1 hb.2
  unfold month_calendar
  rw [if_neg hnr']
  have h := hspec.2.2 0 (by omega) (week_day_number month year) (week_day_number_lt month year)
  rw [h, if_pos (by omega)]
  omega

theorem C2_day_one_column_witness :
    cell (month_calendar 1 1) 0 (((days_up_to 1 1 + 5) % 7).toNat) = 1 ∧
    week_days.indexOf "Saturday" = 5 :=
  C2_day_one_column 1 1 (by decide) (by decide) (by decide) (by decide)

/-! ### Leap-count arithmetic -/

theorem fdiv_coe_four (m : Nat) : Int.fdiv (m : Int) 4 = ((m / 4 : Nat) : Int) := by
  cases m with
  | zero => decide
  | succ k => rfl

theorem fdiv_coe_hundred (m : Nat) : Int.fdiv (m : Int) 100 = ((m / 100 : Nat) : Int) := by
  cases m with
  | zero => decide
  | succ k => rfl

theorem fdiv_coe_fourhundred (m : Nat) : Int.fdiv (m : Int) 400 = ((m / 400 : Nat) : Int) := by
  cases m with
  | zero => decide
  | succ k => rfl

theorem fdiv_zero_left (c : Int) : Int.fdiv 0 c = 0 := by
  cases c with
  | ofNat k => cases k <;> rfl
  | negSucc k => rfl

theorem calendar_leapdays_one (year : Nat) (hy : 1 ≤ year) :
    calendar_leapdays 1 year =
      (((year - 1) / 4 : Nat) : Int) - ((year - 1) / 100 : Nat) + ((year - 1) / 400 : Nat) := by
  unfold calendar_leapdays
  have hcast : (year : Int) - 1 = (((year - 1 : Nat)) : Int) := by omega
  have h11 : (1 : Int) - 1 = 0 := by decide
  rw [hcast, h11]
  simp only [fdiv_zero_left, fdiv_coe_four, fdiv_coe_hundred, fdiv_coe_fourhundred]
  push_cast
  ring

theorem std_gregorian_leap_iff (year : Nat) :
    std_gregorian_leap year = true ↔
      (year % 4 = 0 ∧ (year % 100 ≠ 0 ∨ year % 400 = 0)) := by
  unfold std_gregorian_leap
  simp [Bool.and_eq_true, Bool.or_eq_true, beq_iff_eq, bne_iff_ne]

theorem is_leap_year_iff (year : Nat) :
    is_leap_year year = true ↔
      ((year ≤ 1582 ∧ year % 4 = 0) ∨
       (1582 < year ∧ year % 4 = 0 ∧ (year % 100 ≠ 0 ∨ year % 400 = 0))) := by
  unfold is_leap_year calendar_isleap ancient_leapyear_period gregorian_reformation_year
  split_ifs with h
  · simp only [beq_iff_eq]
    omega
  · simp only [Bool.and_eq_true, Bool.or_eq_true, beq_iff_eq, bne_iff_ne]
    omega

theorem calendar_leapdays_succ (n : Nat) (hn : 1 ≤ n) :
    calendar_leapdays 1 ((n + 1 : Nat) : Int) =
      calendar_leapdays 1 n + (if std_gregorian_leap n = true then 1 else 0) := by
  rw [calendar_leapdays_one (n + 1) (by omega), calendar_leapdays_one n hn]
  by_cases h : std_gregorian_leap n = true
  · rw [if_pos h]
    have hm := (std_gregorian_leap_iff n).mp h
    omega
  · rw [if_neg h]
    have hm : ¬(n % 4 = 0 ∧ (n % 100 ≠ 0 ∨ n % 400 = 0)) := fun hc =>
      h ((std_gregorian_leap_iff n).mpr hc)
    omega

theorem gregorian_leap_count_succ (y : Nat) (hy : 1 ≤ y) :
    gregorian_leap_count (y + 1) =
      gregorian_leap_count y + (if std_gregorian_leap y = true then 1 else 0) := by
  unfold gregorian_leap_count
  rw [Nat.Ico_succ_right_eq_insert_Ico hy, Finset.filter_insert]
  split_ifs with h
  · rw [Finset.card_insert_of_not_mem (by simp [Finset.mem_filter, Finset.mem_Ico])]
  · rfl

theorem calendar_leapdays_eq_count (year : Nat) (hy : 1 ≤ year) :
    calendar_leapdays 1 year = (gregorian_leap_count year : Int) := by
  induction year with
  | zero => exact absurd hy (by omega)
  | succ n ih =>
    by_cases hn : 1 ≤ n
    · rw [calendar_leapdays_succ n hn, gregorian_leap_count_succ n hn, ih hn]
      split_ifs <;> push_cast <;> ring
    · have h0 : n = 0 := by omega
      subst h0
      have h1 : gregorian_leap_count 1 = 0 := by
        unfold gregorian_leap_count
        simp
      rw [h1]
      decide

/-- C3: for every month in [1,12] and year ≥ 1, `days_up_to month year` equals
`(year−1)·365 + previous_leap_days year + sum(monthLengths[1..month−1])
+ (1 if the standard non-piecewise Gregorian leap check passes and
month > February else 0) − (10 exactly when (year, month) is strictly after
the cutover, i.e. year > 1582 or (year = 1582 and month > 10))`. -/
theorem C3_days_up_to_formula (month year : Nat) (hm1 : 1 ≤ month) (hm2 : month ≤ 12)
    (hy : 1 ≤ year) :
    days_up_to month year = days_up_to_spec month year := by
  have hsum : ((month_days.take month).sum : Int) =
      ((spec_month_lengths.take (month - 1)).sum : Int) := by
    interval_cases month <;> decide
  unfold days_up_to days_up_to_spec
  simp only [month_days_tail_sum, february_index, gregorian_reformation_year,
    gregorian_reformation_month, gregorian_reformation_step]
  rw [hsum]
  have hle : calendar_isleap year = std_gregorian_leap year := rfl
  rw [hle]
  split_ifs <;> push_cast <;> ring

theorem C3_days_up_to_formula_witness :
    days_up_to 5 2024 = days_up_to_spec 5 2024 :=
  C3_days_up_to_formula 5 2024 (by decide) (by decide) (by decide)

/-- C4: for every year ≥ 1, `previous_leap_days year` is `⌊(year−1)/4⌋` when
year ≤ 1582, and otherwise the number of standard-Gregorian leap years in
[1, year) plus the fixed correction constant 12. -/
theorem C4_previous_leap_days_formula (year : Nat) (hy : 1 ≤ year) :
    previous_leap_days year =
      if year ≤ 1582 then (((year - 1) / 4 : Nat) : Int)
      else (gregorian_leap_count year : Int) + 12 := by
  unfold previous_leap_days
  simp only [gregorian_reformation_year, leapdays_function_error, ancient_leapyear_period]
  split_ifs with h
  · have hcast : (year : Int) - 1 = ((year - 1 : Nat) : Int) := by omega
    rw [hcast, fdiv_coe_coe]
  · rw [calendar_leapdays_eq_count year hy]
    push_cast
    ring

theorem C4_previous_leap_days_formula_witness :
    previous_leap_days 2000 =
      if 2000 ≤ 1582 then (((2000 - 1) / 4 : Nat) : Int)
      else (gregorian_leap_count 2000 : Int) + 12 :=
  C4_previous_leap_days_formula 2000 (by decide)

/-- C5: for every year ≥ 1, `previous_leap_days (year+1) − previous_leap_days
year` is 1 when `is_leap_year year` and 0 otherwise; in particular the two
branches of the accumulator agree across the 1582 cutover given the
correction constant 12. -/
theorem C5_leap_accumulator_consistency (year : Nat) (hy : 1 ≤ year) :
    previous_leap_days (year + 1) - previous_leap_days year =
      if is_leap_year year = true then 1 else 0 := by
  unfold previous_leap_days
  simp only [gregorian_reformation_year, leapdays_function_error, ancient_leapyear_period]
  by_cases h1 : year + 1 ≤ 1582
  · rw [if_pos h1, if_pos (by omega)]
    have e1 : ((year + 1 : Nat) : Int) - 1 = ((year : Nat) : Int) := by push_cast; ring
    have e2 : ((year : Nat) : Int) - 1 = ((year - 1 : Nat) : Int) := by omega
    rw [e1, e2, fdiv_coe_coe, fdiv_coe_coe]
    have hiff := is_leap_year_iff year
    by_cases hl : is_leap_year year = true
    · rw [if_pos hl]
      rw [hiff] at hl
      omega
    · rw [if_neg hl]
      have hl' : ¬((year ≤ 1582 ∧ year % 4 = 0) ∨
          (1582 < year ∧ year % 4 = 0 ∧ (year % 100 ≠ 0 ∨ year % 400 = 0))) :=
        fun hc => hl (hiff.mpr hc)
      omega
  · by_cases h2 : year ≤ 1582
    · have hv : year = 1582 := by omega
      subst hv
      decide
    · rw [if_neg h1, if_neg h2]
      rw [calendar_leapdays_succ year (by omega)]
      have hl : is_leap_year year = std_gregorian_leap year := by
        unfold is_leap_year calendar_isleap std_gregorian_leap gregorian_reformation_year
        rw [if_neg h2]
      rw [hl]
      split_ifs <;> ring

theorem C5_leap_accumulator_consistency_witness :
    previous_leap_days (2000 + 1) - previous_leap_days 2000 =
      if is_leap_year 2000 = true then 1 else 0 :=
  C5_leap_accumulator_consistency 2000 (by decide)

/-- C6: for every year ≥ 1, `is_leap_year year` is true iff year % 4 = 0
when year ≤ 1582 (Julian rule, no century exception), and iff the standard
Gregorian rule holds when year > 1582; the function is total on its domain. -/
theorem C6_is_leap_year_rules (year : Nat) (hy : 1 ≤ year) :
    is_leap_year year = true ↔
      (if year ≤ 1582 then year % 4 = 0
       else year % 4 = 0 ∧ (year % 100 ≠ 0 ∨ year % 400 = 0)) := by
  rw [is_leap_year_iff]
  split_ifs with h <;> omega

theorem C6_is_leap_year_rules_witness :
    is_leap_year 1900 = true ↔
      (if 1900 ≤ 1582 then 1900 % 4 = 0
       else 1900 % 4 = 0 ∧ (1900 % 100 ≠ 0 ∨ 1900 % 400 = 0)) :=
  C6_is_leap_year_rules 1900 (by decide)

/-- C7: `days_on_month 10 1582 = 21`, the reformation month's grid is the
fixed literal constant (never computed), and its nonzero cells are exactly
{1,2,3,4} ∪ {15,…,31}, never any of 5–14. -/
theorem C7_reformation_month :
    days_on_month 10 1582 = 21 ∧
    month_calendar 10 1582 = gregorian_reformation_month_calendar ∧
    ∀ d : Nat, (d ∈ (month_calendar 10 1582).flatten ∧ d ≠ 0) ↔
      ((1 ≤ d ∧ d ≤ 4) ∨ (15 ≤ d ∧ d ≤ 31)) := by
  refine ⟨by decide, by decide, fun d => ?_⟩
  have hm : (month_calendar 10 1582).flatten =
      [1, 2, 3, 4, 15, 16, 17, 18, 19, 20, 21, 22, 23, 24, 25, 26, 27, 28, 29, 30, 31,
       0, 0, 0, 0, 0, 0, 0, 0, 0, 0, 0, 0, 0, 0, 0, 0, 0, 0, 0, 0, 0] := by decide
  rw [hm]
  simp only [List.mem_cons, List.not_mem_nil, or_false]
  omega

theorem month_tables_eq (month : Nat) (h1 : 1 ≤ month) (h2 : month ≤ 12) :
    month_days.getD month 0 = spec_month_lengths.getD (month - 1) 0 := by
  interval_cases month <;> rfl

/-- C8: for every month in [1,12] and year ≥ 1 with (month, year) ≠ (10, 1582),
`days_on_month` is 29 for a leap-year February and the table value
(31,28,31,30,31,30,31,31,30,31,30,31) otherwise; in particular February has
29 days in 2000 (Gregorian leap), 28 in 1900 (Gregorian century rule), and 29
in 1500 (Julian rule, no century exception). -/
theorem C8_days_on_month_rule (month year : Nat) (hm1 : 1 ≤ month) (hm2 : month ≤ 12)
    (hy : 1 ≤ year) (hnr : ¬(month = 10 ∧ year = 1582)) :
    days_on_month month year =
      (if month = 2 ∧ is_leap_year year = true then 29
       else spec_month_lengths.getD (month - 1) 0) ∧
    days_on_month 2 2000 = 29 ∧ days_on_month 2 1900 = 28 ∧ days_on_month 2 1500 = 29 := by
  refine ⟨?_, by decide, by decide, by decide⟩
  have hnr' : ¬(month = gregorian_reformation_month ∧ year = gregorian_reformation_year) := hnr
  unfold days_on_month
  rw [if_neg hnr']
  by_cases hfeb : month = 2
  · subst hfeb
    by_cases hl : is_leap_year year = true
    · rw [if_pos ⟨hl, rfl⟩, if_pos ⟨rfl, hl⟩]
      rfl
    · rw [if_neg (fun hc => hl hc.1), if_neg (fun hc => hl hc.2)]
      rfl
  · rw [if_neg (fun hc => hfeb ((month_names_feb month hm1 hm2).mp hc.2)),
        if_neg (fun hc => hfeb hc.1)]
    exact month_tables_eq month hm1 hm2

theorem C8_days_on_month_rule_witness :
    days_on_month 2 1500 =
      (if 2 = 2 ∧ is_leap_year 1500 = true then 29
       else spec_month_lengths.getD (2 - 1) 0) ∧
    days_on_month 2 2000 = 29 ∧ days_on_month 2 1900 = 28 ∧ days_on_month 2 1500 = 29 :=
  C8_days_on_month_rule 2 1500 (by decide) (by decide) (by decide) (by decide)

/-- C9: an invocation whose arguments are missing or fail to parse as
integers, or whose month is outside [1,12], or whose year is < 1, exits with
the usage message `Usage: <program-name> month year` (printed to standard
error, non-zero status) and produces no calendar; a valid invocation prints
the calendar and no usage message. -/
theorem C9_cli_validation (prog : String) (a1 a2 : Option Int) :
    ((a1 = none ∨ a2 = none ∨
        (∃ m y, a1 = some m ∧ a2 = some y ∧ (m < 1 ∨ m > 12 ∨ y < 1))) →
      main_program prog a1 a2 = MainOutcome.usage_exit ("Usage: " ++ prog ++ " month year")) ∧
    (∀ m y, a1 = some m → a2 = some y → 1 ≤ m → m ≤ 12 → 1 ≤ y →
      main_program prog a1 a2 = MainOutcome.calendar_output (month_calendar m.toNat y.toNat)) := by
  constructor
  · intro h
    cases a1 with
    | none => rfl
    | some m =>
      cases a2 with
      | none => rfl
      | some y =>
        rcases h with h | h | ⟨m', y', hm', hy', hr⟩
        · exact absurd h (by simp)
        · exact absurd h (by simp)
        · obtain rfl := Option.some.inj hm'
          obtain rfl := Option.some.inj hy'
          simp only [main_program]
          rw [if_pos hr]
  · intro m y h1 h2 hm1 hm2 hy1
    subst h1
    subst h2
    simp only [main_program]
    rw [if_neg (by omega)]

theorem C9_cli_validation_witness :
    main_program "cal_1582.py" (some 13) (some 2024) =
      MainOutcome.usage_exit ("Usage: " ++ "cal_1582.py" ++ " month year") :=
  (C9_cli_validation "cal_1582.py" (some 13) (some 2024)).1
    (Or.inr (Or.inr ⟨13, 2024, rfl, rfl, by decide⟩))

theorem calendar_isleap_iff (year : Nat) :
    calendar_isleap year = true ↔
      (year % 4 = 0 ∧ (year % 100 ≠ 0 ∨ year % 400 = 0)) :=
  std_gregorian_leap_iff year

/-- C10: for every year ≥ 1 and month in [1,11],
`days_up_to (month+1) year - days_up_to month year = days_on_month month year`,
except exactly for February of a Julian-era century year not divisible by 400
(month = 2, year ≤ 1582, year % 100 = 0, year % 400 ≠ 0, e.g. year 1500),
where the difference is 28 while `days_on_month 2 year` is 29: the cumulative
day count used for weekday placement omits the Julian-era century leap day
that the month grid of that same February displays. -/
theorem C10_days_up_to_consistency (month year : Nat)
    (hm1 : 1 ≤ month) (hm2 : month ≤ 11) (hy : 1 ≤ year) :
    if month = 2 ∧ year ≤ 1582 ∧ year % 100 = 0 ∧ year % 400 ≠ 0 then
      days_up_to (month + 1) year - days_up_to month year = 28 ∧
        days_on_month month year = 29
    else
      days_up_to (month + 1) year - days_up_to month year =
        (days_on_month month year : Int) := by
  by_cases hfeb : month = 2
  · subst hfeb
    by_cases hc : year ≤ 1582 ∧ year % 100 = 0 ∧ year % 400 ≠ 0
    · rw [if_pos ⟨rfl, hc⟩]
      have hil : ¬ calendar_isleap year = true := fun ht => by
        have := (calendar_isleap_iff year).mp ht
        omega
      have hlp : is_leap_year year = true := by
        rw [is_leap_year_iff]
        omega
      constructor
      · simp [days_up_to, gregorian_reformation_year, gregorian_reformation_month,
          gregorian_reformation_step, february_index, month_days]
        split_ifs <;> omega
      · simp [days_on_month, gregorian_reformation_year, gregorian_reformation_month,
          month_days, month_names, hlp]
    · rw [if_neg (fun hx => hc hx.2)]
      have hiff := calendar_isleap_iff year
      have hiff2 := is_leap_year_iff year
      simp [days_up_to, days_on_month, gregorian_reformation_year,
        gregorian_reformation_month, gregorian_reformation_step, february_index,
        month_days, month_names]
      by_cases hl : is_leap_year year = true <;> by_cases hg : calendar_isleap year = true <;>
        simp [hl, hg] <;> rw [hiff2] at hl <;> rw [hiff] at hg <;> split_ifs <;> omega
  · rw [if_neg (fun hx => hfeb hx.1)]
    interval_cases month <;>
    first
      | exact absurd rfl hfeb
      | (by_cases h15 : year = 1582
         · subst h15
           decide
         · simp [days_up_to, days_on_month, gregorian_reformation_year,
             gregorian_reformation_month, gregorian_reformation_step, february_index,
             month_days, month_names, h15]
           split_ifs <;> omega)

theorem C10_days_up_to_consistency_witness :
    if 2 = 2 ∧ 1500 ≤ 1582 ∧ 1500 % 100 = 0 ∧ 1500 % 400 ≠ 0 then
      days_up_to (2 + 1) 1500 - days_up_to 2 1500 = 28 ∧
        days_on_month 2 1500 = 29
    else
      days_up_to (2 + 1) 1500 - days_up_to 2 1500 = (days_on_month 2 1500 : Int) :=
  C10_days_up_to_consistency 2 1500 (by decide) (by decide) (by decide)

end Cal1582
